import Mathlib

/-!
# Music-Playlist backend: verified model of the catalog / like / audio-cache core

Shallow embedding of the FastAPI + SQLAlchemy services of the
Music-Playlist backend:

* `app/services/audio_service.py`   (audio preview cache),
* `app/services/song_service.py`    (catalog CRUD),
* `app/services/playlist_service.py` (playlists and likes),
* the data model of `app/models/*.py` and schemas of `app/schemas/*.py`.

Database state is a record of row lists; each service function is a pure
function from state to result and new state, committing atomically exactly as
the corresponding Python function does (one commit per call, raises before the
first mutation leave the state untouched).  Python floats (`Song.duration`)
are pass-through data in every modelled function and are carried as integers;
`datetime` timestamps are drawn from a logical clock.
-/

namespace MusicPlaylist

deriving instance DecidableEq for Except

/-! ## String helpers (Python `in` and `.endswith` on strings) -/

/-- `charsStart l p`: the char list `l` starts with the pattern `p`. -/
def charsStart : List Char → List Char → Bool
  | _, [] => true
  | [], _ :: _ => false
  | a :: as, b :: bs => a == b && charsStart as bs

/-- `charsHas l p`: the pattern `p` occurs contiguously inside `l`. -/
def charsHas : List Char → List Char → Bool
  | [], p => p.isEmpty
  | a :: as, p => charsStart (a :: as) p || charsHas as p

/-- Python `pat in s` on strings. -/
def strContains (s pat : String) : Bool :=
  charsHas s.toList pat.toList

/-- Python `s.endswith(pat)`. -/
def strEnds (s pat : String) : Bool :=
  charsStart s.toList.reverse pat.toList.reverse

/-! ## Audio cache (`app/services/audio_service.py`) -/

/-- The cache root `AUDIO_STORAGE_DIR`, expressed relative to the backend
root (what `file_path.relative_to(_backend_root)` strips down to). -/
def audioStorageDir : String := "audio_storage"

/-- `AudioService._get_file_path` composed with `relative_to(_backend_root)`:
the backend-relative path `audio_storage/<hash(url)>.mp3`.  The MD5 hex digest
`hashlib.md5(url.encode()).hexdigest()` of `_get_file_hash` is abstracted as
the parameter `h`; every theorem about the cache holds for an arbitrary
deterministic `h`. -/
def audioFilePath (h : String → String) (url : String) : String :=
  audioStorageDir ++ "/" ++ h url ++ ".mp3"

/-- The preview-URL filter in `AudioService.download_preview`:
`"preview" in url or "p.scdn.co" in url or url.endswith(".mp3")`. -/
def isPreviewUrl (url : String) : Bool :=
  strContains url "preview" || strContains url "p.scdn.co" || strEnds url ".mp3"

/-- The filesystem visible to the audio cache: the backend-relative paths that
currently exist under the cache root. -/
structure AudioFS where
  files : List String
deriving DecidableEq

/-- `Path.exists()`. -/
def AudioFS.hasFile (fs : AudioFS) (path : String) : Bool :=
  fs.files.contains path

/-- `open(file_path, "wb")` + chunk writes: the path now exists. -/
def AudioFS.write (fs : AudioFS) (path : String) : AudioFS :=
  ⟨path :: fs.files⟩

/-- `file_path.unlink()`. -/
def AudioFS.unlink (fs : AudioFS) (path : String) : AudioFS :=
  ⟨fs.files.erase path⟩

/-- Outcome of the `requests.get(url, timeout=30, stream=True)` download in
`download_preview`, classified by which Python `except` clause would see it:

* `ok`           - the request and all chunk writes succeed;
* `failEarly`    - `requests.get` / `raise_for_status` raises
                   `RequestException` before the target file is opened;
* `failMidReq`   - a `requests.exceptions.RequestException` (e.g.
                   `ChunkedEncodingError`, `ConnectionError`) is raised by
                   `iter_content` after part of the file has been written;
* `failMidOther` - a non-request exception (e.g. `OSError` from the write)
                   is raised after part of the file has been written. -/
inductive NetOutcome where
  | ok
  | failEarly
  | failMidReq
  | failMidOther
deriving DecidableEq

/-- Result of one audio-cache call: the value returned to the caller, the
filesystem after the call, and the number of network download attempts the
call performed.  The Lean functions below return normally in every case,
mirroring that the Python code catches every exception and returns `None`. -/
structure FetchResult where
  ret : Option String
  fs : AudioFS
  downloads : Nat
deriving DecidableEq

/-- `AudioService.download_preview`.  Branches in source order:
empty URL, the preview-shape filter, the `file_path.exists()` fast path, then
the streamed download.  The `except requests.exceptions.RequestException`
handler returns `None` *without* removing the file; only the generic
`except Exception` handler performs the partial-file cleanup
(`if file_path.exists(): file_path.unlink()`). -/
def download_preview (h : String → String) (net : NetOutcome) (url : String)
    (fs : AudioFS) : FetchResult :=
  if url = "" then ⟨none, fs, 0⟩
  else if isPreviewUrl url = false then ⟨none, fs, 0⟩
  else
    let path := audioFilePath h url
    if fs.hasFile path then ⟨some path, fs, 0⟩
    else
      match net with
      | NetOutcome.ok => ⟨some path, fs.write path, 1⟩
      | NetOutcome.failEarly => ⟨none, fs, 1⟩
      | NetOutcome.failMidReq => ⟨none, fs.write path, 1⟩
      | NetOutcome.failMidOther => ⟨none, (fs.write path).unlink path, 1⟩

/-- `AudioService.get_audio_path` — the spec's `fetch(url)`: returns the
cached path when the file already exists, otherwise delegates to
`download_preview`. -/
def get_audio_path (h : String → String) (net : NetOutcome) (url : String)
    (fs : AudioFS) : FetchResult :=
  if url = "" then ⟨none, fs, 0⟩
  else
    let path := audioFilePath h url
    if fs.hasFile path then ⟨some path, fs, 0⟩
    else download_preview h net url fs

/-- A concrete stand-in hash used only to instantiate `h` in witnesses and
counterexamples (all general theorems quantify over `h`). -/
def md5c : String → String := fun _ => "9a0364b9e99bb480dd25e1f0284c8555"

/-- Concrete preview-shaped URL used in witnesses and counterexamples. -/
def cPreviewUrl : String := "https://p.scdn.co/mp3-preview/abc"

/-! ## Data model (`app/models/*.py`) and schemas (`app/schemas/*.py`) -/

/-- `app.models.song.Song` row.  `liked` is the denormalized one-way flag
(`Boolean, default=False, nullable=False`); `created_at` is a logical
timestamp drawn from the database clock. -/
structure Song where
  id : Nat
  title : String
  artist : String
  album : String
  album_id : Option Nat
  genre : String
  duration : Int
  url : String
  local_file_path : Option String
  image_url : Option String
  liked : Bool
  created_at : Nat
deriving DecidableEq

/-- `app.models.playlist.Like` row: the per-user join table. -/
structure Like where
  id : Nat
  user_id : Nat
  song_id : Nat
  created_at : Nat
deriving DecidableEq

/-- `app.models.playlist.PlaylistSong` join row. -/
structure PlaylistSong where
  id : Nat
  playlist_id : Nat
  song_id : Nat
  added_at : Nat
deriving DecidableEq

/-- `app.models.playlist.Playlist` row. -/
structure Playlist where
  id : Nat
  name : String
  description : String
  owner_id : Nat
  created_at : Nat
  updated_at : Nat
deriving DecidableEq

/-- `app.schemas.song.SongCreate` payload (= `SongBase`). -/
structure SongCreate where
  title : String
  artist : String
  album : String
  genre : String
  duration : Int
  url : String
  local_file_path : Option String := none
  album_id : Option Nat := none
  image_url : Option String := none
deriving DecidableEq

/-- `app.schemas.song.SongUpdate`: the update schema admits ONLY these five
optional fields; `none` models a field absent from the request
(`model_dump(exclude_unset=True)` drops it). -/
structure SongUpdate where
  title : Option String := none
  artist : Option String := none
  album : Option String := none
  genre : Option String := none
  album_id : Option Nat := none
deriving DecidableEq

/-- `app.schemas.song.SongResponse`: the song view returned to clients, with
the derived `liked` field. -/
structure SongResponse where
  id : Nat
  title : String
  artist : String
  album : String
  genre : String
  duration : Int
  url : String
  local_file_path : Option String
  album_id : Option Nat
  image_url : Option String
  created_at : Nat
  liked : Bool
deriving DecidableEq

/-- `app.schemas.playlist.PlaylistCreate`. -/
structure PlaylistCreate where
  name : String
  description : String := ""
deriving DecidableEq

/-- `app.schemas.playlist.PlaylistUpdate`. -/
structure PlaylistUpdate where
  name : Option String := none
  description : Option String := none
deriving DecidableEq

/-- The relational state: row lists plus autoincrement counters (SQL sequences
never reuse ids) and a logical clock feeding `datetime.utcnow` defaults. -/
structure DB where
  songs : List Song
  likes : List Like
  playlists : List Playlist
  playlist_songs : List PlaylistSong
  nextSongId : Nat
  nextLikeId : Nat
  nextPlaylistId : Nat
  nextPlaylistSongId : Nat
  now : Nat
deriving DecidableEq

/-- The empty database (fresh schema; autoincrement sequences start at 1). -/
def initDB : DB := ⟨[], [], [], [], 1, 1, 1, 1, 0⟩

/-- Errors surfaced to the HTTP caller.  `http c d` models
`HTTPException(status_code=c, detail=d)` — the codebase realizes the spec's
error taxonomy as: NotFound = 404, duplicate rejection ("Conflict") = 400,
Forbidden = 403.  `unmappedInstance` models the
`sqlalchemy.orm.exc.UnmappedInstanceError` that `Session.delete` raises when
handed an object that is not a mapped model instance; it escapes the service
uncaught (a 500 to the client). -/
inductive ApiError where
  | http (code : Nat) (detail : String)
  | unmappedInstance
deriving DecidableEq

/-! ## List helpers modelling SQLAlchemy row access -/

/-- Mutate the first element satisfying `p`: the `.first()`-then-`setattr`
pattern (the session's identity map updates that one row in place). -/
def updateFirst (p : α → Bool) (f : α → α) : List α → List α
  | [] => []
  | a :: as => if p a then f a :: as else a :: updateFirst p f as

/-- Delete the first element satisfying `p`: the `.first()`-then-`db.delete`
pattern. -/
def eraseFirst (p : α → Bool) : List α → List α
  | [] => []
  | a :: as => if p a then as else a :: eraseFirst p as

/-- Insertion step for `sortBy`. -/
def insertSorted (le : α → α → Bool) (a : α) : List α → List α
  | [] => [a]
  | b :: bs => if le a b then a :: b :: bs else b :: insertSorted le a bs

/-- `ORDER BY` on a row list (insertion sort; the modelled queries sort by
keys that are pairwise distinct, so the sorted order is uniquely
determined). -/
def sortBy (le : α → α → Bool) : List α → List α
  | [] => []
  | a :: as => insertSorted le a (sortBy le as)

/-! ## Query helpers -/

/-- `db.query(Song).filter(Song.id == song_id).first()`. -/
def findSong (db : DB) (sid : Nat) : Option Song :=
  db.songs.find? (fun s => s.id == sid)

/-- `db.query(Like).filter((Like.user_id == user_id) & (Like.song_id == song_id)).first()`. -/
def findLike (db : DB) (uid sid : Nat) : Option Like :=
  db.likes.find? (fun l => l.user_id == uid && l.song_id == sid)

/-- Membership in `songs_with_likes = {like.song_id for like in
db.query(Like.song_id).distinct()}`: does any user like this song? -/
def anyLikeFor (db : DB) (sid : Nat) : Bool :=
  db.likes.any (fun l => l.song_id == sid)

/-- `findLike` as a Bool: does this user like this song? -/
def userLiked (db : DB) (uid sid : Nat) : Bool :=
  (findLike db uid sid).isSome

/-- `db.query(Playlist).filter(Playlist.id == playlist_id).first()`. -/
def findPlaylist (db : DB) (pid : Nat) : Option Playlist :=
  db.playlists.find? (fun p => p.id == pid)

/-- `db.query(PlaylistSong).filter((playlist_id ==) & (song_id ==)).first()`. -/
def findPlaylistSong (db : DB) (pid sid : Nat) : Option PlaylistSong :=
  db.playlist_songs.find? (fun r => r.playlist_id == pid && r.song_id == sid)

/-! ## Song service (`app/services/song_service.py`) -/

/-- The explicit `song_dict` built by every service function before
constructing a `SongResponse`. -/
def songToDict (s : Song) (liked : Bool) : SongResponse :=
  ⟨s.id, s.title, s.artist, s.album, s.genre, s.duration, s.url,
   s.local_file_path, s.album_id, s.image_url, s.created_at, liked⟩

/-- `LikeService._add_liked_status`: look up the (user, song) Like row and
attach the result as the `liked` field.  (The `song is None` ValueError branch
is unreachable here: the argument type is a `Song`.) -/
def add_liked_status (db : DB) (song : Song) (uid : Nat) : SongResponse :=
  songToDict song (userLiked db uid song.id)

/-- `Song(**song_create.model_dump())` plus column defaults:
`liked` defaults to `False`, `created_at` to the current time, `id` to the
next autoincrement value. -/
def songFromCreate (p : SongCreate) (sid now : Nat) : Song :=
  ⟨sid, p.title, p.artist, p.album, p.album_id, p.genre, p.duration, p.url,
   p.local_file_path, p.image_url, false, now⟩

/-- `SongService.create_song`: insert the row, commit, then check whether the
calling user (if any) has liked the fresh song. -/
def create_song (db : DB) (p : SongCreate) (uid : Option Nat) :
    SongResponse × DB :=
  let s := songFromCreate p db.nextSongId db.now
  let db' := { db with songs := db.songs ++ [s],
                       nextSongId := db.nextSongId + 1, now := db.now + 1 }
  let liked := match uid with
    | some u => userLiked db' u s.id
    | none => false
  (songToDict s liked, db')

/-- `SongService.get_song`: 404 when the id does not resolve; otherwise the
`liked` field is the user's own Like row when a user is authenticated, and
the existence of any Like row when not. -/
def get_song (db : DB) (sid : Nat) (uid : Option Nat) :
    Except ApiError SongResponse :=
  match findSong db sid with
  | none => Except.error (ApiError.http 404 "Song not found")
  | some s =>
    let liked := match uid with
      | some u => userLiked db u sid
      | none => anyLikeFor db sid
    Except.ok (songToDict s liked)

/-- `SongService.get_all_songs`: `ORDER BY id ASC OFFSET skip LIMIT limit`,
then per song the same two-way `liked` derivation (the source's
`user_liked_song_ids` / `songs_with_likes` set memberships are exactly
`userLiked` / `anyLikeFor`). -/
def get_all_songs (db : DB) (skip limit : Nat) (uid : Option Nat) :
    List SongResponse :=
  let songs := ((sortBy (fun a b => a.id ≤ b.id) db.songs).drop skip).take limit
  songs.map (fun s =>
    let liked := match uid with
      | some u => userLiked db u s.id
      | none => anyLikeFor db s.id
    songToDict s liked)

/-- The `setattr` loop over `song_update.model_dump(exclude_unset=True)`:
only the five `SongUpdate` fields can ever be assigned. -/
def applySongUpdate (u : SongUpdate) (s : Song) : Song :=
  { s with
    title := u.title.getD s.title,
    artist := u.artist.getD s.artist,
    album := u.album.getD s.album,
    genre := u.genre.getD s.genre,
    album_id := match u.album_id with
      | some a => some a
      | none => s.album_id }

/-- `SongService.update_song`: 404 when absent; otherwise apply the set
fields to the row, commit, and rebuild the view with the two-way `liked`
derivation. -/
def update_song (db : DB) (sid : Nat) (u : SongUpdate) (uid : Option Nat) :
    Except ApiError SongResponse × DB :=
  match findSong db sid with
  | none => (Except.error (ApiError.http 404 "Song not found"), db)
  | some s =>
    let db' := { db with
      songs := updateFirst (fun t => t.id == sid) (applySongUpdate u) db.songs,
      now := db.now + 1 }
    let liked := match uid with
      | some uu => userLiked db' uu sid
      | none => anyLikeFor db' sid
    (Except.ok (songToDict (applySongUpdate u s) liked), db')

/-- `SongService.delete_song`.  The source fetches the song through
`SongService.get_song`, which returns a pydantic `SongResponse`, and then
calls `db.delete(song)` on that response object; SQLAlchemy's
`Session.delete` raises `UnmappedInstanceError` for any object that is not a
mapped model instance, so the delete and the commit never execute and the
session is left unchanged (the preceding likes `count()` query has no side
effect). -/
def delete_song (db : DB) (sid : Nat) : Except ApiError String × DB :=
  match get_song db sid none with
  | Except.error e => (Except.error e, db)
  | Except.ok _ => (Except.error ApiError.unmappedInstance, db)

/-! ## Like service (`app/services/playlist_service.py`, `LikeService`) -/

/-- `LikeService.like_song`: 404 when the song is absent, 400
`"Song already liked"` (the spec's Conflict) when the (user, song) Like row
already exists; otherwise insert the Like, set `Song.liked = True` on the
fetched row, commit, and return the view built by `_add_liked_status`. -/
def like_song (db : DB) (sid uid : Nat) : Except ApiError SongResponse × DB :=
  match findSong db sid with
  | none => (Except.error (ApiError.http 404 "Song not found"), db)
  | some s =>
    match findLike db uid sid with
    | some _ => (Except.error (ApiError.http 400 "Song already liked"), db)
    | none =>
      let lk : Like := ⟨db.nextLikeId, uid, sid, db.now⟩
      let db' := { db with
        likes := db.likes ++ [lk],
        songs := updateFirst (fun t => t.id == sid)
          (fun t => { t with liked := true }) db.songs,
        nextLikeId := db.nextLikeId + 1,
        now := db.now + 1 }
      (Except.ok (add_liked_status db' { s with liked := true } uid), db')

/-- `LikeService.unlike_song`: 404 when no Like row exists; otherwise delete
the Like row and commit.  The `Song.liked` column is deliberately left
untouched (source comment: "Once liked=True, it stays True (one-way flag)"). -/
def unlike_song (db : DB) (sid uid : Nat) : Except ApiError String × DB :=
  match findLike db uid sid with
  | none => (Except.error (ApiError.http 404 "Like not found"), db)
  | some _ =>
    (Except.ok "Song unliked",
     { db with
       likes := eraseFirst (fun l => l.user_id == uid && l.song_id == sid) db.likes,
       now := db.now + 1 })

/-- The duplicate-like check and Like insertion block shared verbatim by
`like_song` and `like_song_with_data` (operating on the fetched row `s`):
400 `"Song already liked"` when the (user, song) Like row exists, otherwise
insert the Like, set `Song.liked = True` on the row, commit, and return the
`_add_liked_status` view. -/
def insertLikeStep (db : DB) (s : Song) (uid : Nat) :
    Except ApiError SongResponse × DB :=
  match findLike db uid s.id with
  | some _ => (Except.error (ApiError.http 400 "Song already liked"), db)
  | none =>
    let lk : Like := ⟨db.nextLikeId, uid, s.id, db.now⟩
    let db' := { db with
      likes := db.likes ++ [lk],
      songs := updateFirst (fun t => t.id == s.id)
        (fun t => { t with liked := true }) db.songs,
      nextLikeId := db.nextLikeId + 1,
      now := db.now + 1 }
    (Except.ok (add_liked_status db' { s with liked := true } uid), db')

/-- `LikeService.like_song_with_data`: look up an existing song by exact
(title, artist) match; if absent, create it through `SongService.create_song`
(which performs NO audio-cache call: neither `playlist_service.py` nor
`song_service.py` imports `AudioService`) and re-fetch the created row by id
(when that re-fetch fails the 500 is raised after the create was already
committed, so the created song persists); then the same duplicate-like check
and Like insertion as `like_song`. -/
def like_song_with_data (db : DB) (p : SongCreate) (uid : Nat) :
    Except ApiError SongResponse × DB :=
  match db.songs.find? (fun s => s.title == p.title && s.artist == p.artist) with
  | some s => insertLikeStep db s uid
  | none =>
    let r := create_song db p (some uid)
    match findSong r.2 r.1.id with
    | some s => insertLikeStep r.2 s uid
    | none => (Except.error (ApiError.http 500 "Failed to create song"), r.2)

/-- `LikeService.get_user_likes`: Like rows of the user ordered by
`created_at` descending, paginated, eagerly joined to their song rows
(`if like.song is not None` drops dangling rows). -/
def get_user_likes (db : DB) (uid : Nat) (skip limit : Nat) :
    List SongResponse :=
  let likes := ((sortBy (fun a b => b.created_at ≤ a.created_at)
      (db.likes.filter (fun l => l.user_id == uid))).drop skip).take limit
  likes.filterMap (fun l =>
    match findSong db l.song_id with
    | some s => some (add_liked_status db s uid)
    | none => none)

/-! ## Playlist service (`app/services/playlist_service.py`, `PlaylistService`) -/

/-- `PlaylistService.create_playlist`. -/
def create_playlist (db : DB) (p : PlaylistCreate) (uid : Nat) :
    Playlist × DB :=
  let pl : Playlist := ⟨db.nextPlaylistId, p.name, p.description, uid, db.now, db.now⟩
  (pl, { db with playlists := db.playlists ++ [pl],
                 nextPlaylistId := db.nextPlaylistId + 1, now := db.now + 1 })

/-- `PlaylistService.update_playlist`: 404 / 403, then apply the set fields. -/
def update_playlist (db : DB) (pid : Nat) (u : PlaylistUpdate) (uid : Nat) :
    Except ApiError Playlist × DB :=
  match findPlaylist db pid with
  | none => (Except.error (ApiError.http 404 "Playlist not found"), db)
  | some pl =>
    if pl.owner_id ≠ uid then
      (Except.error (ApiError.http 403 "Not authorized to update this playlist"), db)
    else
      let f := fun q : Playlist =>
        { q with name := u.name.getD q.name,
                 description := u.description.getD q.description,
                 updated_at := db.now }
      (Except.ok (f pl),
       { db with playlists := updateFirst (fun q => q.id == pid) f db.playlists,
                 now := db.now + 1 })

/-- `PlaylistService.delete_playlist`: 404 / 403, then delete the playlist;
the `cascade="all, delete-orphan"` relationship deletes its `PlaylistSong`
rows in the same commit. -/
def delete_playlist (db : DB) (pid uid : Nat) : Except ApiError String × DB :=
  match findPlaylist db pid with
  | none => (Except.error (ApiError.http 404 "Playlist not found"), db)
  | some pl =>
    if pl.owner_id ≠ uid then
      (Except.error (ApiError.http 403 "Not authorized to delete this playlist"), db)
    else
      (Except.ok "Playlist deleted successfully",
       { db with
         playlists := eraseFirst (fun q => q.id == pid) db.playlists,
         playlist_songs := db.playlist_songs.filter (fun r => !(r.playlist_id == pid)),
         now := db.now + 1 })

/-- `PlaylistService.add_song_to_playlist`: 404 playlist, 403 non-owner,
404 song, then 400 `"Song already in playlist"` (the spec's Conflict) when
the (playlist, song) row exists; otherwise insert the join row. -/
def add_song_to_playlist (db : DB) (pid sid uid : Nat) :
    Except ApiError Playlist × DB :=
  match findPlaylist db pid with
  | none => (Except.error (ApiError.http 404 "Playlist not found"), db)
  | some pl =>
    if pl.owner_id ≠ uid then
      (Except.error (ApiError.http 403 "Not authorized to modify this playlist"), db)
    else
      match findSong db sid with
      | none => (Except.error (ApiError.http 404 "Song not found"), db)
      | some _ =>
        match findPlaylistSong db pid sid with
        | some _ => (Except.error (ApiError.http 400 "Song already in playlist"), db)
        | none =>
          let row : PlaylistSong := ⟨db.nextPlaylistSongId, pid, sid, db.now⟩
          (Except.ok pl,
           { db with playlist_songs := db.playlist_songs ++ [row],
                     nextPlaylistSongId := db.nextPlaylistSongId + 1,
                     now := db.now + 1 })

/-- `PlaylistService.remove_song_from_playlist`: 404 playlist, 403 non-owner,
then 404 `"Song not in playlist"` when no (playlist, song) row exists;
otherwise delete that row. -/
def remove_song_from_playlist (db : DB) (pid sid uid : Nat) :
    Except ApiError String × DB :=
  match findPlaylist db pid with
  | none => (Except.error (ApiError.http 404 "Playlist not found"), db)
  | some pl =>
    if pl.owner_id ≠ uid then
      (Except.error (ApiError.http 403 "Not authorized to modify this playlist"), db)
    else
      match findPlaylistSong db pid sid with
      | none => (Except.error (ApiError.http 404 "Song not in playlist"), db)
      | some _ =>
        (Except.ok "Song removed from playlist",
         { db with
           playlist_songs := eraseFirst
             (fun r => r.playlist_id == pid && r.song_id == sid) db.playlist_songs,
           now := db.now + 1 })

/-- The `/likes/with-data` route: it calls `LikeService.like_song_with_data`
and nothing else; no audio-cache code runs anywhere on this path, so the
audio filesystem and the download count are passed through untouched. -/
def like_with_data_route (p : SongCreate) (uid : Nat) (db : DB) (fs : AudioFS)
    (downloads : Nat) : Except ApiError SongResponse × DB × AudioFS × Nat :=
  let r := like_song_with_data db p uid
  (r.1, r.2, fs, downloads)

/-! ## Mutating operations and reachable states -/

/-- One mutating service call.  The read endpoints (`get_song`,
`get_all_songs`, `search_songs`, `get_user_likes`, `get_playlist`,
`get_user_playlists`) build responses without mutating the session, so they
are represented by the pure functions above and are identities on `DB`. -/
inductive Op where
  | createSong (p : SongCreate) (uid : Option Nat)
  | updateSong (sid : Nat) (u : SongUpdate) (uid : Option Nat)
  | deleteSong (sid : Nat)
  | likeSong (sid uid : Nat)
  | unlikeSong (sid uid : Nat)
  | likeSongWithData (p : SongCreate) (uid : Nat)
  | createPlaylist (p : PlaylistCreate) (uid : Nat)
  | updatePlaylist (pid : Nat) (u : PlaylistUpdate) (uid : Nat)
  | deletePlaylist (pid uid : Nat)
  | addSongToPlaylist (pid sid uid : Nat)
  | removeSongFromPlaylist (pid sid uid : Nat)

/-- The state transition of one operation (errors leave the state unchanged,
as each service raises before its first mutation). -/
def applyOp (op : Op) (db : DB) : DB :=
  match op with
  | Op.createSong p uid => (create_song db p uid).2
  | Op.updateSong sid u uid => (update_song db sid u uid).2
  | Op.deleteSong sid => (delete_song db sid).2
  | Op.likeSong sid uid => (like_song db sid uid).2
  | Op.unlikeSong sid uid => (unlike_song db sid uid).2
  | Op.likeSongWithData p uid => (like_song_with_data db p uid).2
  | Op.createPlaylist p uid => (create_playlist db p uid).2
  | Op.updatePlaylist pid u uid => (update_playlist db pid u uid).2
  | Op.deletePlaylist pid uid => (delete_playlist db pid uid).2
  | Op.addSongToPlaylist pid sid uid => (add_song_to_playlist db pid sid uid).2
  | Op.removeSongFromPlaylist pid sid uid => (remove_song_from_playlist db pid sid uid).2

/-- Run a sequence of operations. -/
def applyOps (ops : List Op) (db : DB) : DB :=
  ops.foldl (fun d op => applyOp op d) db

/-! ## Database invariants -/

/-- Every song id is below the autoincrement counter. -/
@[reducible] def songIdsBelow (db : DB) : Prop := ∀ s ∈ db.songs, s.id < db.nextSongId

/-- Every Like row references an existing song. -/
@[reducible] def likesRefSongs (db : DB) : Prop :=
  ∀ l ∈ db.likes, ∃ s ∈ db.songs, s.id = l.song_id

/-- A song some Like row points at carries `liked = true`. -/
@[reducible] def likeImpliesFlag (db : DB) : Prop :=
  ∀ l ∈ db.likes, ∀ s ∈ db.songs, s.id = l.song_id → s.liked = true

/-- Song ids are pairwise distinct (primary key). -/
@[reducible] def songIdsDistinct (db : DB) : Prop :=
  db.songs.Pairwise (fun a b => a.id ≠ b.id)

/-- No two `PlaylistSong` rows share the same (playlist, song) pair: the
service-layer uniqueness invariant. -/
@[reducible] def noDupPlaylistSong (db : DB) : Prop :=
  db.playlist_songs.Pairwise
    (fun a b => ¬(a.playlist_id = b.playlist_id ∧ a.song_id = b.song_id))

/-- The conjunction of the state invariants preserved by every operation. -/
@[reducible] def Inv (db : DB) : Prop :=
  songIdsBelow db ∧ likesRefSongs db ∧ likeImpliesFlag db ∧
    songIdsDistinct db ∧ noDupPlaylistSong db

/-- "The liked flag has latched for song `sid`": the song exists and every
song row carrying that id has `liked = true`. -/
@[reducible] def likedPersists (sid : Nat) (db : DB) : Prop :=
  (∃ s ∈ db.songs, s.id = sid) ∧ ∀ s ∈ db.songs, s.id = sid → s.liked = true

/-! ## Concrete fixtures used by witnesses and counterexamples -/

/-- Concrete song payload: preview-shaped URL, no local path. -/
def cSong : SongCreate :=
  { title := "Popular", artist := "Ariana Grande", album := "Wicked",
    genre := "Pop", duration := 30, url := cPreviewUrl }

/-- The row `create_song` stores for `cSong` as song id 1 at time 0. -/
def song1 : Song := songFromCreate cSong 1 0

/-- Database holding exactly song 1 (unliked, no Like rows). -/
def dbSong1 : DB := ⟨[song1], [], [], [], 2, 1, 1, 1, 1⟩

/-- Database where user 7 has liked song 1 (flag latched). -/
def dbLiked : DB :=
  ⟨[{ song1 with liked := true }], [⟨1, 7, 1, 1⟩], [], [], 2, 2, 1, 1, 2⟩

/-- Database with playlist 1 (owner 5) containing song 1, and user 7's like;
used for the playlist-membership and delete-song claims. -/
def dbFull : DB :=
  ⟨[{ song1 with liked := true }], [⟨1, 7, 1, 1⟩],
   [⟨1, "Mix", "", 5, 0, 0⟩], [⟨1, 1, 1, 1⟩], 2, 2, 2, 2, 2⟩

/-! ## Generic lemmas about the row-access helpers -/

theorem updateFirst_cons (p : α → Bool) (f : α → α) (a : α) (as : List α) :
    updateFirst p f (a :: as) =
      if p a then f a :: as else a :: updateFirst p f as := rfl

theorem mem_of_mem_updateFirst {p : α → Bool} {f : α → α} {l : List α} {a : α}
    (h : a ∈ updateFirst p f l) : a ∈ l ∨ ∃ b ∈ l, p b = true ∧ a = f b := by
  induction l with
  | nil => simp [updateFirst] at h
  | cons b bs ih =>
    rw [updateFirst_cons] at h
    split at h
    · next hb =>
      rcases List.mem_cons.mp h with h | h
      · exact Or.inr ⟨b, List.mem_cons_self b bs, hb, h⟩
      · exact Or.inl (List.mem_cons_of_mem b h)
    · next hb =>
      rcases List.mem_cons.mp h with h | h
      · exact Or.inl (by simp [h])
      · rcases ih h with h | ⟨c, hc, hpc, hfc⟩
        · exact Or.inl (List.mem_cons_of_mem b h)
        · exact Or.inr ⟨c, List.mem_cons_of_mem b hc, hpc, hfc⟩

theorem exists_key_mem_updateFirst {p : α → Bool} {f : α → α} (k : α → Nat)
    {n : Nat} (hf : ∀ a, k (f a) = k a) {l : List α}
    (h : ∃ a ∈ l, k a = n) : ∃ a ∈ updateFirst p f l, k a = n := by
  induction l with
  | nil => simp at h
  | cons b bs ih =>
    rw [updateFirst_cons]
    rcases h with ⟨a, ha, hk⟩
    split
    · next hb =>
      rcases List.mem_cons.mp ha with rfl | ha
      · exact ⟨f a, List.mem_cons_self _ _, (hf a).trans hk⟩
      · exact ⟨a, List.mem_cons_of_mem _ ha, hk⟩
    · next hb =>
      rcases List.mem_cons.mp ha with rfl | ha
      · exact ⟨a, List.mem_cons_self _ _, hk⟩
      · rcases ih ⟨a, ha, hk⟩ with ⟨c, hc, hkc⟩
        exact ⟨c, List.mem_cons_of_mem _ hc, hkc⟩

theorem forall_mem_updateFirst {p : α → Bool} {f : α → α} {P : α → Prop}
    {l : List α} (h : ∀ a ∈ l, P a) (hf : ∀ a, P a → P (f a)) :
    ∀ a ∈ updateFirst p f l, P a := by
  intro a ha
  rcases mem_of_mem_updateFirst ha with ha | ⟨b, hb, _, rfl⟩
  · exact h a ha
  · exact hf b (h b hb)

theorem pairwise_updateFirst {p : α → Bool} {f : α → α} {R : α → α → Prop}
    (hfl : ∀ a b, R a b → R (f a) b) (hfr : ∀ a b, R a b → R a (f b))
    {l : List α} (hl : l.Pairwise R) : (updateFirst p f l).Pairwise R := by
  induction hl with
  | nil => exact List.Pairwise.nil
  | @cons a as hab hbs ih =>
    rw [updateFirst_cons]
    split
    · exact List.Pairwise.cons (fun b hb => hfl _ _ (hab b hb)) hbs
    · refine List.Pairwise.cons ?_ ih
      intro b hb
      rcases mem_of_mem_updateFirst hb with hb | ⟨c, hc, _, rfl⟩
      · exact hab b hb
      · exact hfr _ _ (hab c hc)

theorem updateFirst_key_eq {f : α → α} (k : α → Nat) {n : Nat} {l : List α}
    (hdist : l.Pairwise (fun a b => k a ≠ k b)) :
    ∀ a ∈ updateFirst (fun t => k t == n) f l, k a = n →
      ∃ b ∈ l, k b = n ∧ a = f b := by
  induction l with
  | nil => intro a ha; simp [updateFirst] at ha
  | cons b bs ih =>
    intro a ha hk
    rw [updateFirst_cons] at ha
    rcases List.pairwise_cons.mp hdist with ⟨hhead, htail⟩
    split at ha
    · next hb =>
      rcases List.mem_cons.mp ha with rfl | ha
      · exact ⟨b, List.mem_cons_self _ _, by simpa using hb, rfl⟩
      · exact absurd (((by simpa using hb : k b = n)).trans hk.symm) (hhead a ha)
    · next hb =>
      rcases List.mem_cons.mp ha with rfl | ha
      · exact absurd (by simp [hk]) hb
      · rcases ih htail a ha hk with ⟨c, hc, hkc, hfc⟩
        exact ⟨c, List.mem_cons_of_mem _ hc, hkc, hfc⟩

theorem length_updateFirst {p : α → Bool} {f : α → α} :
    ∀ l : List α, (updateFirst p f l).length = l.length
  | [] => rfl
  | a :: as => by
      rw [updateFirst_cons]; split <;> simp [length_updateFirst as]

theorem forall₂_updateFirst {p : α → Bool} {f : α → α} {R : α → α → Prop}
    (hrefl : ∀ a, R a a) (hstep : ∀ a, R a (f a)) :
    ∀ l : List α, List.Forall₂ R l (updateFirst p f l)
  | [] => List.Forall₂.nil
  | a :: as => by
      rw [updateFirst_cons]
      split
      · exact List.Forall₂.cons (hstep a)
          (List.forall₂_same.mpr fun b _ => hrefl b)
      · exact List.Forall₂.cons (hrefl a) (forall₂_updateFirst hrefl hstep as)

theorem eraseFirst_sublist (p : α → Bool) :
    ∀ l : List α, List.Sublist (eraseFirst p l) l
  | [] => List.Sublist.refl []
  | a :: as => by
      show List.Sublist (if p a then as else a :: eraseFirst p as) (a :: as)
      split
      · exact List.Sublist.cons a (List.Sublist.refl as)
      · exact List.Sublist.cons₂ a (eraseFirst_sublist p as)

theorem mem_insertSorted {le : α → α → Bool} {a x : α} :
    ∀ {l : List α}, x ∈ insertSorted le a l ↔ x = a ∨ x ∈ l
  | [] => by simp [insertSorted]
  | b :: bs => by
      show x ∈ (if le a b then a :: b :: bs else b :: insertSorted le a bs) ↔ _
      split
      · simp
      · rw [List.mem_cons, List.mem_cons, mem_insertSorted (l := bs)]
        tauto

theorem mem_sortBy {le : α → α → Bool} {x : α} :
    ∀ {l : List α}, x ∈ sortBy le l ↔ x ∈ l
  | [] => Iff.rfl
  | b :: bs => by
      show x ∈ insertSorted le b (sortBy le bs) ↔ _
      rw [mem_insertSorted, mem_sortBy (l := bs), List.mem_cons]

theorem find?_append_isSome {p : α → Bool} {a : α} (h : p a = true) :
    ∀ l : List α, ((l ++ [a]).find? p).isSome = true
  | [] => by simp [List.find?, h]
  | b :: bs => by
      show ((b :: (bs ++ [a])).find? p).isSome = true
      cases hb : p b
      · rw [List.find?_cons_of_neg _ (by simp [hb])]
        exact find?_append_isSome h bs
      · rw [List.find?_cons_of_pos _ hb]
        rfl

/-! ## Invariant preservation -/

theorem inv_create_song (db : DB) (p : SongCreate) (uid : Option Nat)
    (h : Inv db) : Inv (create_song db p uid).2 := by
  obtain ⟨h1, h2, h3, h4, h5⟩ := h
  show Inv { db with songs := db.songs ++ [songFromCreate p db.nextSongId db.now],
                     nextSongId := db.nextSongId + 1, now := db.now + 1 }
  refine ⟨?_, ?_, ?_, ?_, h5⟩
  · intro s hs
    rcases List.mem_append.mp hs with hs | hs
    · exact Nat.lt_succ_of_lt (h1 s hs)
    · rcases List.mem_singleton.mp hs with rfl
      exact Nat.lt_succ_self _
  · intro l hl
    rcases h2 l hl with ⟨s, hs, hid⟩
    exact ⟨s, List.mem_append_left _ hs, hid⟩
  · intro l hl s hs hid
    rcases List.mem_append.mp hs with hs | hs
    · exact h3 l hl s hs hid
    · rcases List.mem_singleton.mp hs with rfl
      rcases h2 l hl with ⟨s0, hs0, hid0⟩
      have hlt := h1 s0 hs0
      have hni : db.nextSongId = l.song_id := hid
      rw [← hni] at hid0
      exact absurd hid0 (Nat.ne_of_lt hlt)
  · show List.Pairwise (fun a b : Song => a.id ≠ b.id)
      (db.songs ++ [songFromCreate p db.nextSongId db.now])
    rw [List.pairwise_append]
    refine ⟨h4, by simp, ?_⟩
    intro a ha b hb
    rcases List.mem_singleton.mp hb with rfl
    exact Nat.ne_of_lt (h1 a ha)

theorem inv_insertLike (db : DB) (sid uid : Nat)
    (hs : ∃ s ∈ db.songs, s.id = sid) (h : Inv db) :
    Inv { db with
      likes := db.likes ++ [⟨db.nextLikeId, uid, sid, db.now⟩],
      songs := updateFirst (fun t => t.id == sid)
        (fun t => { t with liked := true }) db.songs,
      nextLikeId := db.nextLikeId + 1,
      now := db.now + 1 } := by
  obtain ⟨h1, h2, h3, h4, h5⟩ := h
  refine ⟨?_, ?_, ?_, ?_, h5⟩
  · refine forall_mem_updateFirst h1 ?_
    exact fun a ha => ha
  · intro l hl
    rcases List.mem_append.mp hl with hl | hl
    · refine exists_key_mem_updateFirst (fun s => s.id) ?_ (h2 l hl)
      exact fun a => rfl
    · rcases List.mem_singleton.mp hl with rfl
      refine exists_key_mem_updateFirst (fun s => s.id) ?_ hs
      exact fun a => rfl
  · intro l hl s hsm hid
    rcases List.mem_append.mp hl with hl | hl
    · rcases mem_of_mem_updateFirst hsm with hm | ⟨b, hb, _, rfl⟩
      · exact h3 l hl s hm hid
      · rfl
    · rcases List.mem_singleton.mp hl with rfl
      rcases updateFirst_key_eq (fun t => t.id) h4 s hsm hid with ⟨b, hb, hkb, rfl⟩
      rfl
  · refine pairwise_updateFirst ?_ ?_ h4 <;> exact fun a b hab => hab

theorem delete_song_state (db : DB) (sid : Nat) : (delete_song db sid).2 = db := by
  unfold delete_song
  cases get_song db sid none <;> rfl

theorem inv_insertLikeStep (db : DB) (s : Song) (uid : Nat)
    (hs : ∃ t ∈ db.songs, t.id = s.id) (h : Inv db) :
    Inv (insertLikeStep db s uid).2 := by
  unfold insertLikeStep
  cases hl : findLike db uid s.id with
  | some _ => exact h
  | none => exact inv_insertLike db s.id uid hs h

theorem inv_applyOp (op : Op) (db : DB) (h : Inv db) : Inv (applyOp op db) := by
  cases op with
  | createSong p uid => exact inv_create_song db p uid h
  | updateSong sid u uid =>
    show Inv (update_song db sid u uid).2
    unfold update_song
    cases hs : findSong db sid with
    | none => exact h
    | some s =>
      obtain ⟨h1, h2, h3, h4, h5⟩ := h
      refine ⟨?_, ?_, ?_, ?_, h5⟩
      · refine forall_mem_updateFirst h1 ?_
        exact fun a ha => ha
      · intro l hl
        refine exists_key_mem_updateFirst (fun t => t.id) ?_ (h2 l hl)
        exact fun a => rfl
      · intro l hl s' hs' hid
        rcases mem_of_mem_updateFirst hs' with hm | ⟨b, hb, _, rfl⟩
        · exact h3 l hl s' hm hid
        · exact h3 l hl b hb hid
      · refine pairwise_updateFirst ?_ ?_ h4 <;> exact fun a b hab => hab
  | deleteSong sid =>
    show Inv (delete_song db sid).2
    rw [delete_song_state]
    exact h
  | likeSong sid uid =>
    show Inv (like_song db sid uid).2
    unfold like_song
    cases hs : findSong db sid with
    | none => exact h
    | some s =>
      cases hl : findLike db uid sid with
      | some _ => exact h
      | none =>
        exact inv_insertLike db sid uid
          ⟨s, List.mem_of_find?_eq_some hs, by simpa using List.find?_some hs⟩ h
  | unlikeSong sid uid =>
    show Inv (unlike_song db sid uid).2
    unfold unlike_song
    cases hl : findLike db uid sid with
    | none => exact h
    | some _ =>
      obtain ⟨h1, h2, h3, h4, h5⟩ := h
      refine ⟨h1, ?_, ?_, h4, h5⟩
      · intro l hl
        exact h2 l ((eraseFirst_sublist _ db.likes).mem hl)
      · intro l hl s hsm hid
        exact h3 l ((eraseFirst_sublist _ db.likes).mem hl) s hsm hid
  | likeSongWithData p uid =>
    show Inv (like_song_with_data db p uid).2
    unfold like_song_with_data
    cases hf : db.songs.find? (fun s => s.title == p.title && s.artist == p.artist) with
    | some s =>
      exact inv_insertLikeStep db s uid ⟨s, List.mem_of_find?_eq_some hf, rfl⟩ h
    | none =>
      show Inv (match findSong (create_song db p (some uid)).2
          (create_song db p (some uid)).1.id with
        | some s => insertLikeStep (create_song db p (some uid)).2 s uid
        | none => (Except.error (ApiError.http 500 "Failed to create song"),
            (create_song db p (some uid)).2)).2
      cases hfs : findSong (create_song db p (some uid)).2
          (create_song db p (some uid)).1.id with
      | none => exact inv_create_song db p (some uid) h
      | some s2 =>
        exact inv_insertLikeStep (create_song db p (some uid)).2 s2 uid
          ⟨s2, List.mem_of_find?_eq_some hfs, rfl⟩
          (inv_create_song db p (some uid) h)
  | createPlaylist p uid => exact h
  | updatePlaylist pid u uid =>
    show Inv (update_playlist db pid u uid).2
    unfold update_playlist
    cases hp : findPlaylist db pid with
    | none => exact h
    | some pl =>
      by_cases ho : pl.owner_id ≠ uid
      · simpa [ho] using h
      · simpa [ho] using h
  | deletePlaylist pid uid =>
    show Inv (delete_playlist db pid uid).2
    unfold delete_playlist
    cases hp : findPlaylist db pid with
    | none => exact h
    | some pl =>
      obtain ⟨h1, h2, h3, h4, h5⟩ := h
      by_cases ho : pl.owner_id ≠ uid
      · simpa [ho] using (⟨h1, h2, h3, h4, h5⟩ : Inv db)
      · have hnew : Inv { db with
            playlists := eraseFirst (fun q => q.id == pid) db.playlists,
            playlist_songs := db.playlist_songs.filter (fun r => !(r.playlist_id == pid)),
            now := db.now + 1 } :=
          ⟨h1, h2, h3, h4, h5.sublist (List.filter_sublist _)⟩
        simpa [ho] using hnew
  | addSongToPlaylist pid sid uid =>
    show Inv (add_song_to_playlist db pid sid uid).2
    unfold add_song_to_playlist
    cases hp : findPlaylist db pid with
    | none => exact h
    | some pl =>
      by_cases ho : pl.owner_id ≠ uid
      · simpa [ho] using h
      · cases hs : findSong db sid with
        | none => simpa [ho] using h
        | some s =>
          cases hr : findPlaylistSong db pid sid with
          | some _ => simpa [ho] using h
          | none =>
            obtain ⟨h1, h2, h3, h4, h5⟩ := h
            have h5' : noDupPlaylistSong { db with
                playlist_songs := db.playlist_songs ++
                  [⟨db.nextPlaylistSongId, pid, sid, db.now⟩],
                nextPlaylistSongId := db.nextPlaylistSongId + 1,
                now := db.now + 1 } := by
              show List.Pairwise _ (db.playlist_songs ++ _)
              rw [List.pairwise_append]
              refine ⟨h5, by simp, ?_⟩
              intro a ha b hb
              rcases List.mem_singleton.mp hb with rfl
              intro hcontra
              have := List.find?_eq_none.mp hr a ha
              simp [hcontra.1, hcontra.2] at this
            have hnew : Inv { db with
                playlist_songs := db.playlist_songs ++
                  [⟨db.nextPlaylistSongId, pid, sid, db.now⟩],
                nextPlaylistSongId := db.nextPlaylistSongId + 1,
                now := db.now + 1 } := ⟨h1, h2, h3, h4, h5'⟩
            simpa [ho] using hnew
  | removeSongFromPlaylist pid sid uid =>
    show Inv (remove_song_from_playlist db pid sid uid).2
    unfold remove_song_from_playlist
    cases hp : findPlaylist db pid with
    | none => exact h
    | some pl =>
      by_cases ho : pl.owner_id ≠ uid
      · simpa [ho] using h
      · cases hr : findPlaylistSong db pid sid with
        | none => simpa [ho] using h
        | some _ =>
          obtain ⟨h1, h2, h3, h4, h5⟩ := h
          have hnew : Inv { db with
              playlist_songs := eraseFirst
                (fun r => r.playlist_id == pid && r.song_id == sid) db.playlist_songs,
              now := db.now + 1 } :=
            ⟨h1, h2, h3, h4, h5.sublist (eraseFirst_sublist _ _)⟩
          simpa [ho] using hnew

theorem inv_initDB : Inv initDB := by
  refine ⟨?_, ?_, ?_, ?_, ?_⟩ <;>
    simp [initDB, songIdsBelow, likesRefSongs, likeImpliesFlag,
      songIdsDistinct, noDupPlaylistSong]

theorem applyOps_cons (op : Op) (ops : List Op) (db : DB) :
    applyOps (op :: ops) db = applyOps ops (applyOp op db) := rfl

theorem inv_applyOps (ops : List Op) (db : DB) (h : Inv db) :
    Inv (applyOps ops db) := by
  induction ops generalizing db with
  | nil => exact h
  | cons op ops ih => exact ih (applyOp op db) (inv_applyOp op db h)

theorem inv_reachable (ops : List Op) : Inv (applyOps ops initDB) :=
  inv_applyOps ops initDB inv_initDB

theorem likedPersists_create (db : DB) (p : SongCreate) (uid : Option Nat)
    (sid : Nat) (h1 : songIdsBelow db) (h : likedPersists sid db) :
    likedPersists sid (create_song db p uid).2 := by
  obtain ⟨hex, hall⟩ := h
  show likedPersists sid { db with
    songs := db.songs ++ [songFromCreate p db.nextSongId db.now],
    nextSongId := db.nextSongId + 1, now := db.now + 1 }
  refine ⟨?_, ?_⟩
  · rcases hex with ⟨s, hs, hid⟩
    exact ⟨s, List.mem_append_left _ hs, hid⟩
  · intro s hs hid
    rcases List.mem_append.mp hs with hs | hs
    · exact hall s hs hid
    · rcases List.mem_singleton.mp hs with rfl
      rcases hex with ⟨s0, hs0, hid0⟩
      have hlt := h1 s0 hs0
      have hni : db.nextSongId = sid := hid
      rw [hid0, hni] at hlt
      exact absurd hlt (Nat.lt_irrefl sid)

theorem likedPersists_insertLikeStep (db : DB) (s : Song) (uid sid : Nat)
    (h : likedPersists sid db) : likedPersists sid (insertLikeStep db s uid).2 := by
  obtain ⟨hex, hall⟩ := h
  unfold insertLikeStep
  cases hl : findLike db uid s.id with
  | some _ => exact ⟨hex, hall⟩
  | none =>
    refine ⟨?_, ?_⟩
    · refine exists_key_mem_updateFirst (fun t => t.id) ?_ hex
      exact fun a => rfl
    · intro t ht hid
      rcases mem_of_mem_updateFirst ht with hm | ⟨b, hb, _, rfl⟩
      · exact hall t hm hid
      · rfl

theorem likedPersists_applyOp (op : Op) (db : DB) (sid : Nat)
    (hinv : Inv db) (h : likedPersists sid db) :
    likedPersists sid (applyOp op db) := by
  obtain ⟨h1, h2, h3, h4, h5⟩ := hinv
  cases op with
  | createSong p uid => exact likedPersists_create db p uid sid h1 h
  | updateSong sid2 u uid =>
    show likedPersists sid (update_song db sid2 u uid).2
    unfold update_song
    cases hs : findSong db sid2 with
    | none => exact h
    | some s =>
      obtain ⟨hex, hall⟩ := h
      refine ⟨?_, ?_⟩
      · refine exists_key_mem_updateFirst (fun t => t.id) ?_ hex
        exact fun a => rfl
      · intro t ht hid
        rcases mem_of_mem_updateFirst ht with hm | ⟨b, hb, _, rfl⟩
        · exact hall t hm hid
        · exact hall b hb hid
  | deleteSong sid2 =>
    show likedPersists sid (delete_song db sid2).2
    rw [delete_song_state]
    exact h
  | likeSong sid2 uid =>
    show likedPersists sid (like_song db sid2 uid).2
    unfold like_song
    cases hs : findSong db sid2 with
    | none => exact h
    | some s =>
      cases hl : findLike db uid sid2 with
      | some _ => exact h
      | none =>
        obtain ⟨hex, hall⟩ := h
        refine ⟨?_, ?_⟩
        · refine exists_key_mem_updateFirst (fun t => t.id) ?_ hex
          exact fun a => rfl
        · intro t ht hid
          rcases mem_of_mem_updateFirst ht with hm | ⟨b, hb, _, rfl⟩
          · exact hall t hm hid
          · rfl
  | unlikeSong sid2 uid =>
    show likedPersists sid (unlike_song db sid2 uid).2
    unfold unlike_song
    cases hl : findLike db uid sid2 with
    | none => exact h
    | some _ => exact h
  | likeSongWithData p uid =>
    show likedPersists sid (like_song_with_data db p uid).2
    unfold like_song_with_data
    cases hf : db.songs.find? (fun s => s.title == p.title && s.artist == p.artist) with
    | some s => exact likedPersists_insertLikeStep db s uid sid h
    | none =>
      show likedPersists sid (match findSong (create_song db p (some uid)).2
          (create_song db p (some uid)).1.id with
        | some s => insertLikeStep (create_song db p (some uid)).2 s uid
        | none => (Except.error (ApiError.http 500 "Failed to create song"),
            (create_song db p (some uid)).2)).2
      cases hfs : findSong (create_song db p (some uid)).2
          (create_song db p (some uid)).1.id with
      | none => exact likedPersists_create db p (some uid) sid h1 h
      | some s2 =>
        exact likedPersists_insertLikeStep (create_song db p (some uid)).2 s2 uid sid
          (likedPersists_create db p (some uid) sid h1 h)
  | createPlaylist p uid => exact h
  | updatePlaylist pid u uid =>
    show likedPersists sid (update_playlist db pid u uid).2
    unfold update_playlist
    cases hp : findPlaylist db pid with
    | none => exact h
    | some pl =>
      by_cases ho : pl.owner_id ≠ uid
      · simpa [ho] using h
      · simpa [ho] using h
  | deletePlaylist pid uid =>
    show likedPersists sid (delete_playlist db pid uid).2
    unfold delete_playlist
    cases hp : findPlaylist db pid with
    | none => exact h
    | some pl =>
      by_cases ho : pl.owner_id ≠ uid
      · simpa [ho] using h
      · simpa [ho] using h
  | addSongToPlaylist pid sid2 uid =>
    show likedPersists sid (add_song_to_playlist db pid sid2 uid).2
    unfold add_song_to_playlist
    cases hp : findPlaylist db pid with
    | none => exact h
    | some pl =>
      by_cases ho : pl.owner_id ≠ uid
      · simpa [ho] using h
      · cases hs : findSong db sid2 with
        | none => simpa [ho] using h
        | some s =>
          cases hr : findPlaylistSong db pid sid2 with
          | some _ => simpa [ho] using h
          | none => simpa [ho] using h
  | removeSongFromPlaylist pid sid2 uid =>
    show likedPersists sid (remove_song_from_playlist db pid sid2 uid).2
    unfold remove_song_from_playlist
    cases hp : findPlaylist db pid with
    | none => exact h
    | some pl =>
      by_cases ho : pl.owner_id ≠ uid
      · simpa [ho] using h
      · cases hr : findPlaylistSong db pid sid2 with
        | none => simpa [ho] using h
        | some _ => simpa [ho] using h

theorem likedPersists_applyOps (ops : List Op) (db : DB) (sid : Nat)
    (hinv : Inv db) (h : likedPersists sid db) :
    likedPersists sid (applyOps ops db) := by
  induction ops generalizing db with
  | nil => exact h
  | cons op ops ih =>
    exact ih (applyOp op db) (inv_applyOp op db hinv)
      (likedPersists_applyOp op db sid hinv h)

theorem likedPersists_of_like (db : DB) (sid : Nat) (hinv : Inv db)
    (h : ∃ l ∈ db.likes, l.song_id = sid) : likedPersists sid db := by
  obtain ⟨h1, h2, h3, h4, h5⟩ := hinv
  rcases h with ⟨l, hl, hlid⟩
  refine ⟨?_, ?_⟩
  · rcases h2 l hl with ⟨s, hs, hid⟩
    exact ⟨s, hs, hid.trans hlid⟩
  · intro s hs hid
    exact h3 l hl s hs (hid.trans hlid.symm)

/-- **C1** (confirmed).  Starting from the empty database, once any Like row
exists for song `sid` at some reachable state, then after every further
sequence of service operations (including `unlike_song` removing all Likes,
`update_song`, playlist operations and `delete_song`) every stored song row
with id `sid` still carries `liked = true`: the flag is one-way. -/
theorem liked_flag_one_way (ops1 ops2 : List Op) (sid : Nat)
    (h : ∃ l ∈ (applyOps ops1 initDB).likes, l.song_id = sid) :
    ∀ s ∈ (applyOps ops2 (applyOps ops1 initDB)).songs, s.id = sid →
      s.liked = true := by
  have hinv := inv_reachable ops1
  have hg := likedPersists_of_like (applyOps ops1 initDB) sid hinv h
  exact (likedPersists_applyOps ops2 (applyOps ops1 initDB) sid hinv hg).2

/-- Witness for `liked_flag_one_way`: create song 1, like it as user 7, then
unlike it (removing the only Like row); the stored flag remains true. -/
theorem liked_flag_one_way_witness :
    (∃ l ∈ (applyOps [Op.createSong cSong (some 7), Op.likeSong 1 7] initDB).likes,
        l.song_id = 1) ∧
    ∀ s ∈ (applyOps [Op.unlikeSong 1 7]
        (applyOps [Op.createSong cSong (some 7), Op.likeSong 1 7] initDB)).songs,
      s.id = 1 → s.liked = true :=
  ⟨by decide,
   liked_flag_one_way [Op.createSong cSong (some 7), Op.likeSong 1 7]
     [Op.unlikeSong 1 7] 1 (by decide)⟩

theorem mem_updateFirst_of_mem {p : α → Bool} {f : α → α} {l : List α} {b : α}
    (hb : b ∈ l) : b ∈ updateFirst p f l ∨ f b ∈ updateFirst p f l := by
  induction l with
  | nil => simp at hb
  | cons a as ih =>
    rw [updateFirst_cons]
    split
    · rcases List.mem_cons.mp hb with rfl | hb
      · exact Or.inr (List.mem_cons_self _ _)
      · exact Or.inl (List.mem_cons_of_mem _ hb)
    · rcases List.mem_cons.mp hb with rfl | hb
      · exact Or.inl (List.mem_cons_self _ _)
      · rcases ih hb with h | h
        · exact Or.inl (List.mem_cons_of_mem _ h)
        · exact Or.inr (List.mem_cons_of_mem _ h)

theorem find?_append_eq_last {p : α → Bool} {a : α} {l : List α}
    (hl : ∀ x ∈ l, p x = false) (ha : p a = true) :
    (l ++ [a]).find? p = some a := by
  induction l with
  | nil => simp [List.find?, ha]
  | cons b bs ih =>
    show ((b :: (bs ++ [a])).find? p) = some a
    rw [List.find?_cons_of_neg _ (by simp [hl b (List.mem_cons_self b bs)])]
    exact ih fun x hx => hl x (List.mem_cons_of_mem b hx)

/-! ## Claim C2 — like / unlike error contract -/

/-- **C2** (confirmed).  For any state satisfying the reachable-state
invariants: `like_song` fails with 404 NotFound when no song with id `sid`
exists; fails with the duplicate rejection (the spec's Conflict, realized as
HTTP 400 `"Song already liked"`) when a Like row for (user, song) already
exists, leaving the state unchanged; otherwise inserts exactly one Like row,
sets the stored `Song.liked` to true and returns the song view with
`liked = true`; and `unlike_song` fails with 404 NotFound when no Like row
for (user, song) exists. -/
theorem like_unlike_contract (db : DB) (sid uid : Nat) (hinv : Inv db) :
    (findSong db sid = none →
      like_song db sid uid =
        (Except.error (ApiError.http 404 "Song not found"), db)) ∧
    (∀ s, findSong db sid = some s → ∀ l, findLike db uid sid = some l →
      like_song db sid uid =
        (Except.error (ApiError.http 400 "Song already liked"), db)) ∧
    (∀ s, findSong db sid = some s → findLike db uid sid = none →
      (like_song db sid uid).2.likes =
        db.likes ++ [⟨db.nextLikeId, uid, sid, db.now⟩] ∧
      (∀ t ∈ (like_song db sid uid).2.songs, t.id = sid → t.liked = true) ∧
      ∃ resp, (like_song db sid uid).1 = Except.ok resp ∧
        resp.liked = true ∧ resp.id = sid) ∧
    (findLike db uid sid = none →
      unlike_song db sid uid =
        (Except.error (ApiError.http 404 "Like not found"), db)) := by
  obtain ⟨h1, h2, h3, h4, h5⟩ := hinv
  refine ⟨?_, ?_, ?_, ?_⟩
  · intro hn
    unfold like_song
    rw [hn]
  · intro s hs l hl
    unfold like_song
    rw [hs, hl]
  · intro s hs hl
    have hsid : s.id = sid := by simpa using List.find?_some hs
    unfold like_song
    rw [hs, hl]
    refine ⟨rfl, ?_, ?_⟩
    · intro t ht hid
      rcases updateFirst_key_eq (fun t => t.id) h4 t ht hid with ⟨b, hb, hkb, rfl⟩
      rfl
    · refine ⟨_, rfl, ?_, hsid⟩
      show ((db.likes ++ [(⟨db.nextLikeId, uid, sid, db.now⟩ : Like)]).find?
        (fun l => l.user_id == uid && l.song_id == s.id)).isSome = true
      exact find?_append_isSome (by simp [hsid]) db.likes
  · intro hn
    unfold unlike_song
    rw [hn]

/-- Witness for `like_unlike_contract`: 404 on the empty database, the 400
duplicate rejection on `dbLiked`, a successful like on `dbSong1`, and the 404
unlike on `dbSong1`. -/
theorem like_unlike_contract_witness :
    like_song initDB 1 7 =
      (Except.error (ApiError.http 404 "Song not found"), initDB) ∧
    like_song dbLiked 1 7 =
      (Except.error (ApiError.http 400 "Song already liked"), dbLiked) ∧
    (∃ resp, (like_song dbSong1 1 7).1 = Except.ok resp ∧
      resp.liked = true ∧ resp.id = 1) ∧
    unlike_song dbSong1 1 7 =
      (Except.error (ApiError.http 404 "Like not found"), dbSong1) := by
  refine ⟨?_, ?_, ?_, ?_⟩
  · exact (like_unlike_contract initDB 1 7 (by decide)).1 (by decide)
  · exact (like_unlike_contract dbLiked 1 7 (by decide)).2.1
      { song1 with liked := true } (by decide) ⟨1, 7, 1, 1⟩ (by decide)
  · exact ((like_unlike_contract dbSong1 1 7 (by decide)).2.2.1
      song1 (by decide) (by decide)).2.2
  · exact (like_unlike_contract dbSong1 1 7 (by decide)).2.2.2 (by decide)

/-! ## Claim C3 — delete_song is broken -/

/-- **C3** (code bug).  The claim says `delete_song` removes the song with
its Like and PlaylistSong rows atomically.  In the source,
`SongService.delete_song` fetches the song via `SongService.get_song`, which
returns a pydantic `SongResponse`, and passes that response object to
`db.delete`; SQLAlchemy raises `UnmappedInstanceError` for any non-mapped
object, so deleting an existing song ALWAYS fails with a server error and
removes nothing.  Concretely on `dbFull` (song 1 liked by user 7, member of
playlist 1): the call errors, the state is unchanged, the song, its Like row
and its PlaylistSong row all survive, and user 7's `get_user_likes` still
lists song 1. -/
theorem delete_song_unmapped :
    delete_song dbFull 1 = (Except.error ApiError.unmappedInstance, dbFull) ∧
    (get_user_likes dbFull 7 0 20).map (fun r => r.id) = [1] ∧
    findSong dbFull 1 ≠ none ∧
    findLike dbFull 7 1 ≠ none ∧
    findPlaylistSong dbFull 1 1 ≠ none := by decide

/-! ## Claim C4 — two-way liked-view semantics -/

/-- **C4** (confirmed).  For `get_song` and `get_all_songs`: when a user id
is supplied (authenticated caller) the returned `liked` field is true exactly
when a Like row for (that user, the song) exists; when no user id is supplied
(anonymous caller) it is true exactly when at least one Like row for the song
exists for any user.  The last clause makes "exactly when a Like row exists"
explicit for both derivations. -/
theorem liked_view_semantics (db : DB) (sid : Nat) (uid : Option Nat)
    (skip limit : Nat) :
    (∀ resp, get_song db sid uid = Except.ok resp →
      resp.liked = (match uid with
        | some u => userLiked db u sid
        | none => anyLikeFor db sid)) ∧
    (∀ resp ∈ get_all_songs db skip limit uid,
      resp.liked = (match uid with
        | some u => userLiked db u resp.id
        | none => anyLikeFor db resp.id)) ∧
    (∀ u s, (userLiked db u s = true ↔
        ∃ l ∈ db.likes, l.user_id = u ∧ l.song_id = s) ∧
      (anyLikeFor db s = true ↔ ∃ l ∈ db.likes, l.song_id = s)) := by
  refine ⟨?_, ?_, ?_⟩
  · intro resp h
    unfold get_song at h
    cases hs : findSong db sid with
    | none => rw [hs] at h; exact absurd h (by simp)
    | some s =>
      rw [hs] at h
      injection h with h
      subst h
      cases uid <;> rfl
  · intro resp hresp
    unfold get_all_songs at hresp
    rcases List.mem_map.mp hresp with ⟨s, hs, rfl⟩
    cases uid <;> rfl
  · intro u s
    refine ⟨?_, ?_⟩
    · show (db.likes.find? (fun l => l.user_id == u && l.song_id == s)).isSome
        = true ↔ _
      rw [List.find?_isSome]
      constructor
      · rintro ⟨l, hl, hp⟩
        refine ⟨l, hl, ?_, ?_⟩ <;> simp_all
      · rintro ⟨l, hl, hp1, hp2⟩
        exact ⟨l, hl, by simp [hp1, hp2]⟩
    · show (db.likes.any (fun l => l.song_id == s)) = true ↔ _
      rw [List.any_eq_true]
      constructor
      · rintro ⟨l, hl, hp⟩
        exact ⟨l, hl, by simpa using hp⟩
      · rintro ⟨l, hl, hp⟩
        exact ⟨l, hl, by simp [hp]⟩

/-- Witness for `liked_view_semantics`: on `dbLiked` (song 1 liked only by
user 7), an authenticated read as user 8 reports that user's own (absent)
like, while an anonymous bulk read reports the any-user like. -/
theorem liked_view_semantics_witness :
    (songToDict { song1 with liked := true } false).liked = userLiked dbLiked 8 1 ∧
    ∀ resp ∈ get_all_songs dbLiked 0 20 none,
      resp.liked = anyLikeFor dbLiked resp.id := by
  refine ⟨?_, ?_⟩
  · exact (liked_view_semantics dbLiked 1 (some 8) 0 20).1 _ (by decide)
  · intro resp hresp
    exact (liked_view_semantics dbLiked 1 none 0 20).2.1 resp hresp

/-! ## Claim C9 — playlist membership uniqueness -/

/-- **C9** (confirmed).  For the playlist owner: adding a song already in the
playlist is rejected with the duplicate rejection (the spec's Conflict,
realized as HTTP 400 `"Song already in playlist"`) leaving the state
unchanged; removing a song with no (playlist, song) row yields 404
`"Song not in playlist"`; and in every state reachable from the empty
database no two PlaylistSong rows share the same (playlist, song) pair. -/
theorem playlist_membership_contract (db : DB) (pid sid uid : Nat) :
    (∀ pl, findPlaylist db pid = some pl → pl.owner_id = uid →
      ∀ s, findSong db sid = some s →
      ∀ r, findPlaylistSong db pid sid = some r →
      add_song_to_playlist db pid sid uid =
        (Except.error (ApiError.http 400 "Song already in playlist"), db)) ∧
    (∀ pl, findPlaylist db pid = some pl → pl.owner_id = uid →
      findPlaylistSong db pid sid = none →
      remove_song_from_playlist db pid sid uid =
        (Except.error (ApiError.http 404 "Song not in playlist"), db)) ∧
    (∀ ops, noDupPlaylistSong (applyOps ops initDB)) := by
  refine ⟨?_, ?_, ?_⟩
  · intro pl hpl ho s hs r hr
    unfold add_song_to_playlist
    simp only [hpl, hs, hr, ho]
    simp
  · intro pl hpl ho hr
    unfold remove_song_from_playlist
    simp only [hpl, hr, ho]
    simp
  · intro ops
    exact (inv_reachable ops).2.2.2.2

/-- Witness for `playlist_membership_contract` on `dbFull` (playlist 1 owned
by user 5 containing song 1): duplicate add rejected, removing absent song 2
yields 404, and a concrete reachable state has no duplicate pair. -/
theorem playlist_membership_contract_witness :
    add_song_to_playlist dbFull 1 1 5 =
      (Except.error (ApiError.http 400 "Song already in playlist"), dbFull) ∧
    remove_song_from_playlist dbFull 1 2 5 =
      (Except.error (ApiError.http 404 "Song not in playlist"), dbFull) ∧
    noDupPlaylistSong (applyOps [Op.addSongToPlaylist 1 1 5] initDB) := by
  refine ⟨?_, ?_, ?_⟩
  · exact (playlist_membership_contract dbFull 1 1 5).1 ⟨1, "Mix", "", 5, 0, 0⟩
      (by decide) rfl { song1 with liked := true } (by decide)
      ⟨1, 1, 1, 1⟩ (by decide)
  · exact (playlist_membership_contract dbFull 1 2 5).2.1 ⟨1, "Mix", "", 5, 0, 0⟩
      (by decide) rfl (by decide)
  · exact (playlist_membership_contract dbFull 1 1 5).2.2 [Op.addSongToPlaylist 1 1 5]

/-! ## Claim C10 — update_song frame property -/

/-- **C10** (confirmed).  For every database, song id and update payload
(the `SongUpdate` schema admits only title, artist, album, genre, album_id),
`update_song` preserves, row by row, the song's `id`, `liked` flag, `url`,
`local_file_path`, `image_url`, `duration` and `created_at` — whether the
call succeeds or fails with 404. -/
theorem update_song_frame (db : DB) (sid : Nat) (u : SongUpdate)
    (uid : Option Nat) :
    List.Forall₂ (fun s t =>
        t.id = s.id ∧ t.liked = s.liked ∧ t.url = s.url ∧
        t.local_file_path = s.local_file_path ∧ t.image_url = s.image_url ∧
        t.duration = s.duration ∧ t.created_at = s.created_at)
      db.songs (update_song db sid u uid).2.songs := by
  unfold update_song
  cases hs : findSong db sid with
  | none => exact List.forall₂_same.mpr fun a _ => ⟨rfl, rfl, rfl, rfl, rfl, rfl, rfl⟩
  | some s =>
    refine forall₂_updateFirst ?_ ?_ db.songs
    · exact fun a => ⟨rfl, rfl, rfl, rfl, rfl, rfl, rfl⟩
    · exact fun a => ⟨rfl, rfl, rfl, rfl, rfl, rfl, rfl⟩

/-! ## Claim C8 — likeWithData -/

/-- **C8** (counterexample).  The claim includes "performing an Audio Cache
pre-fetch when a preview URL is embedded in the payload".  This is false:
liking the payload `cSong` (whose `url` is preview-shaped) on the empty
database through the `/likes/with-data` route succeeds and creates the song,
yet the audio filesystem stays empty, zero downloads are performed, and the
created row keeps `local_file_path = None` instead of a cache path —
`like_song_with_data` and `create_song` never call `AudioService`. -/
theorem like_with_data_no_prefetch_counterexample :
    isPreviewUrl cSong.url = true ∧
    (like_with_data_route cSong 7 initDB ⟨[]⟩ 0).1 =
      Except.ok (songToDict { song1 with liked := true } true) ∧
    (∃ s ∈ (like_with_data_route cSong 7 initDB ⟨[]⟩ 0).2.1.songs,
        s.title = cSong.title ∧ s.local_file_path = none) ∧
    (like_with_data_route cSong 7 initDB ⟨[]⟩ 0).2.2.1 = (⟨[]⟩ : AudioFS) ∧
    (like_with_data_route cSong 7 initDB ⟨[]⟩ 0).2.2.2 = 0 := by decide

/-- **C8** (amended).  `like_song_with_data` looks up an existing song by
exact (title, artist) first match; when found and already liked it fails with
the duplicate rejection (HTTP 400 `"Song already liked"`); when found and not
yet liked it inserts exactly one Like row and creates no song; when absent it
creates the song purely from the payload (keeping the payload's
`local_file_path`, with NO audio-cache pre-fetch: the route leaves the audio
filesystem and download count untouched) and then inserts the Like for the
fresh song. -/
theorem like_with_data_contract (db : DB) (p : SongCreate) (uid : Nat)
    (fs : AudioFS) (dl : Nat) (hinv : Inv db) :
    ((like_with_data_route p uid db fs dl).2.2 = (fs, dl)) ∧
    (∀ s, db.songs.find? (fun t => t.title == p.title && t.artist == p.artist)
        = some s →
      ∀ l, findLike db uid s.id = some l →
      like_song_with_data db p uid =
        (Except.error (ApiError.http 400 "Song already liked"), db)) ∧
    (∀ s, db.songs.find? (fun t => t.title == p.title && t.artist == p.artist)
        = some s →
      findLike db uid s.id = none →
      (like_song_with_data db p uid).2.likes =
        db.likes ++ [⟨db.nextLikeId, uid, s.id, db.now⟩] ∧
      (like_song_with_data db p uid).2.songs.length = db.songs.length) ∧
    (db.songs.find? (fun t => t.title == p.title && t.artist == p.artist)
        = none →
      (∃ s ∈ (like_song_with_data db p uid).2.songs,
        s.id = db.nextSongId ∧ s.title = p.title ∧ s.artist = p.artist ∧
        s.local_file_path = p.local_file_path) ∧
      (like_song_with_data db p uid).2.likes =
        db.likes ++ [⟨db.nextLikeId, uid, db.nextSongId, db.now + 1⟩]) := by
  obtain ⟨h1, h2, h3, h4, h5⟩ := hinv
  refine ⟨rfl, ?_, ?_, ?_⟩
  · intro s hs l hl
    unfold like_song_with_data
    rw [hs]
    show insertLikeStep db s uid =
      (Except.error (ApiError.http 400 "Song already liked"), db)
    unfold insertLikeStep
    rw [hl]
  · intro s hs hl
    unfold like_song_with_data
    rw [hs]
    show (insertLikeStep db s uid).2.likes =
        db.likes ++ [(⟨db.nextLikeId, uid, s.id, db.now⟩ : Like)] ∧
      (insertLikeStep db s uid).2.songs.length = db.songs.length
    unfold insertLikeStep
    rw [hl]
    exact ⟨rfl, length_updateFirst db.songs⟩
  · intro hn
    unfold like_song_with_data
    simp only [hn]
    have hnew : findSong (create_song db p (some uid)).2
        (create_song db p (some uid)).1.id =
        some (songFromCreate p db.nextSongId db.now) := by
      show (db.songs ++ [songFromCreate p db.nextSongId db.now]).find?
        (fun s => s.id == db.nextSongId) = some (songFromCreate p db.nextSongId db.now)
      refine find?_append_eq_last ?_ (by simp [songFromCreate])
      intro x hx
      simpa using Nat.ne_of_lt (h1 x hx)
    simp only [hnew]
    unfold insertLikeStep
    have hnolike : findLike (create_song db p (some uid)).2 uid
        (songFromCreate p db.nextSongId db.now).id = none := by
      show db.likes.find?
        (fun l => l.user_id == uid && l.song_id == db.nextSongId) = none
      rw [List.find?_eq_none]
      intro l hl
      rcases h2 l hl with ⟨s0, hs0, hid0⟩
      have := h1 s0 hs0
      rw [hid0] at this
      simp [Nat.ne_of_lt this]
    simp only [hnolike]
    refine ⟨?_, rfl⟩
    rcases mem_updateFirst_of_mem (p := fun t => t.id == db.nextSongId)
        (f := fun t => { t with liked := true })
        (List.mem_append_right db.songs
          (List.mem_singleton.mpr rfl)) with hm | hm
    · exact ⟨songFromCreate p db.nextSongId db.now, hm, rfl, rfl, rfl, rfl⟩
    · exact ⟨{ songFromCreate p db.nextSongId db.now with liked := true },
        hm, rfl, rfl, rfl, rfl⟩

/-- Witness for `like_with_data_contract`: the route passes the cache through
untouched on `dbSong1`; liking the already-liked `cSong` on `dbLiked` is
rejected; liking `cSong` on the empty database creates song 1 from the
payload. -/
theorem like_with_data_contract_witness :
    (like_with_data_route cSong 7 dbSong1 ⟨["f"]⟩ 3).2.2 = (⟨["f"]⟩, 3) ∧
    like_song_with_data dbLiked cSong 7 =
      (Except.error (ApiError.http 400 "Song already liked"), dbLiked) ∧
    ((∃ s ∈ (like_song_with_data initDB cSong 7).2.songs,
        s.id = 1 ∧ s.title = cSong.title ∧ s.artist = cSong.artist ∧
        s.local_file_path = cSong.local_file_path) ∧
      (like_song_with_data initDB cSong 7).2.likes = [⟨1, 7, 1, 1⟩]) := by
  refine ⟨?_, ?_, ?_⟩
  · exact (like_with_data_contract dbSong1 cSong 7 ⟨["f"]⟩ 3 (by decide)).1
  · exact (like_with_data_contract dbLiked cSong 7 ⟨[]⟩ 0 (by decide)).2.1
      { song1 with liked := true } (by decide) ⟨1, 7, 1, 1⟩ (by decide)
  · exact (like_with_data_contract initDB cSong 7 ⟨[]⟩ 0 (by decide)).2.2.2 (by decide)

/-! ## Claims C5, C6, C7 — audio cache -/

/-- **C6** (confirmed).  Every URL that is not preview-shaped — it does not
contain `"preview"`, does not contain the CDN host token `"p.scdn.co"` and
does not end with `".mp3"` — is rejected by `download_preview` without any
download attempt: the result is `None` and the cache filesystem is
untouched. -/
theorem nonpreview_url_rejected (h : String → String) (net : NetOutcome)
    (url : String) (fs : AudioFS) (hp : isPreviewUrl url = false) :
    download_preview h net url fs = ⟨none, fs, 0⟩ := by
  unfold download_preview
  by_cases hu : url = "" <;> simp [hu, hp]

/-- Witness for `nonpreview_url_rejected` at a concrete non-preview URL. -/
theorem nonpreview_url_rejected_witness :
    isPreviewUrl "https://open.spotify.com/track/123" = false ∧
    download_preview md5c NetOutcome.ok "https://open.spotify.com/track/123" ⟨[]⟩ =
      ⟨none, ⟨[]⟩, 0⟩ :=
  ⟨by decide,
   nonpreview_url_rejected md5c NetOutcome.ok "https://open.spotify.com/track/123" ⟨[]⟩
     (by decide)⟩

/-- **C7** (counterexample).  The claim "whenever `download_preview` fails
after starting a download it removes any partially-written file at the target
path" is false: a `requests.exceptions.RequestException` raised by
`iter_content` mid-write is caught by the handler that returns `None`
*without* the cleanup, so the partial file stays at the target path.
Concrete input: the preview URL `cPreviewUrl` on an empty cache. -/
theorem download_cleanup_counterexample :
    (download_preview md5c NetOutcome.failMidReq cPreviewUrl ⟨[]⟩).ret = none ∧
    (download_preview md5c NetOutcome.failMidReq cPreviewUrl ⟨[]⟩).fs.hasFile
      (audioFilePath md5c cPreviewUrl) = true := by decide

/-- **C7** (amended).  Whenever `download_preview` fails it returns `None` and
never raises to the caller; the partially-written file is removed when the
failure is a non-request exception during the write (the generic
`except Exception` handler), but a `RequestException` raised mid-write leaves
the partially-written file at the target path.  Failures before the file is
opened leave the filesystem unchanged. -/
theorem download_failure_behavior (h : String → String) (net : NetOutcome)
    (url : String) (fs : AudioFS)
    (hnet : net ≠ NetOutcome.ok)
    (hmiss : fs.hasFile (audioFilePath h url) = false) :
    (download_preview h net url fs).ret = none ∧
    (net ≠ NetOutcome.failMidReq →
      (download_preview h net url fs).fs.files = fs.files) ∧
    (net = NetOutcome.failMidReq → url ≠ "" → isPreviewUrl url = true →
      (download_preview h net url fs).fs = fs.write (audioFilePath h url)) := by
  have hmiss' : audioFilePath h url ∉ fs.files := by
    simpa [AudioFS.hasFile] using hmiss
  unfold download_preview
  by_cases hu : url = ""
  · simp [hu]
  · by_cases hp : isPreviewUrl url = false
    · simp [hu, hp]
    · cases net with
      | ok => exact absurd rfl hnet
      | failEarly => simp [hu, hp, hmiss]
      | failMidReq => simp [hu, hp, hmiss]
      | failMidOther =>
          simp [hu, hp, hmiss, hmiss', AudioFS.write, AudioFS.unlink]

/-- Witness for `download_failure_behavior`: a mid-write `OSError` on an empty
cache removes the partial file, and a mid-write `RequestException` leaves it. -/
theorem download_failure_behavior_witness :
    ((download_preview md5c NetOutcome.failMidOther cPreviewUrl ⟨[]⟩).ret = none ∧
     (download_preview md5c NetOutcome.failMidOther cPreviewUrl ⟨[]⟩).fs.files = []) ∧
    (download_preview md5c NetOutcome.failMidReq cPreviewUrl ⟨[]⟩).fs =
      AudioFS.write ⟨[]⟩ (audioFilePath md5c cPreviewUrl) := by
  refine ⟨⟨?_, ?_⟩, ?_⟩
  · exact (download_failure_behavior md5c NetOutcome.failMidOther cPreviewUrl ⟨[]⟩
      (by decide) (by decide)).1
  · exact (download_failure_behavior md5c NetOutcome.failMidOther cPreviewUrl ⟨[]⟩
      (by decide) (by decide)).2.1 (by decide)
  · exact (download_failure_behavior md5c NetOutcome.failMidReq cPreviewUrl ⟨[]⟩
      (by decide) (by decide)).2.2 rfl (by decide) (by decide)

/-- **C5** (counterexample).  "Two sequential calls of `fetch(u)` return the
same local path" is false: on an empty cache, a first call whose streamed
download dies with a mid-write `RequestException` returns `None` but leaves
the partial file, so the second call returns the hash-derived path of that
partial file.  Concrete input: `cPreviewUrl`, empty cache. -/
theorem fetch_idempotent_counterexample :
    (get_audio_path md5c NetOutcome.failMidReq cPreviewUrl ⟨[]⟩).ret = none ∧
    (get_audio_path md5c NetOutcome.failMidReq cPreviewUrl
        (get_audio_path md5c NetOutcome.failMidReq cPreviewUrl ⟨[]⟩).fs).ret =
      some (audioFilePath md5c cPreviewUrl) ∧
    (none : Option String) ≠ some (audioFilePath md5c cPreviewUrl) := by decide

/-- **C5** (amended).  Unless the first call fails mid-write with a
`RequestException` (which leaves a partial file behind), two sequential
`get_audio_path` calls for the same URL under the same network outcome return
the same local path, and the second call performs no network download whenever
the first call returned a path; moreover any call for a URL whose file already
exists at the hash-derived path returns that path immediately, with no network
download and no filesystem change. -/
theorem fetch_idempotent (h : String → String) (net : NetOutcome) (url : String)
    (fs : AudioFS) (hnet : net ≠ NetOutcome.failMidReq) :
    ((get_audio_path h net url fs).ret =
      (get_audio_path h net url (get_audio_path h net url fs).fs).ret) ∧
    ((get_audio_path h net url fs).ret.isSome = true →
      (get_audio_path h net url (get_audio_path h net url fs).fs).downloads = 0) ∧
    (url ≠ "" → fs.hasFile (audioFilePath h url) = true →
      get_audio_path h net url fs = ⟨some (audioFilePath h url), fs, 0⟩) := by
  unfold get_audio_path download_preview
  by_cases hu : url = ""
  · simp [hu]
  · by_cases hx : audioFilePath h url ∈ fs.files
    · simp [hu, hx, AudioFS.hasFile]
    · by_cases hp : isPreviewUrl url = false
      · simp [hu, hx, hp, AudioFS.hasFile]
      · cases net with
        | ok =>
            simp [hu, hx, hp, AudioFS.hasFile, AudioFS.write]
        | failEarly => simp [hu, hx, hp, AudioFS.hasFile]
        | failMidReq => exact absurd rfl hnet
        | failMidOther =>
            simp [hu, hx, hp, AudioFS.hasFile, AudioFS.write, AudioFS.unlink]

/-- Witness for `fetch_idempotent`: a successful download followed by a cache
hit, on a concrete preview URL and empty cache. -/
theorem fetch_idempotent_witness :
    ((get_audio_path md5c NetOutcome.ok cPreviewUrl ⟨[]⟩).ret =
      (get_audio_path md5c NetOutcome.ok cPreviewUrl
        (get_audio_path md5c NetOutcome.ok cPreviewUrl ⟨[]⟩).fs).ret) ∧
    (get_audio_path md5c NetOutcome.ok cPreviewUrl
        (get_audio_path md5c NetOutcome.ok cPreviewUrl ⟨[]⟩).fs).downloads = 0 := by
  refine ⟨(fetch_idempotent md5c NetOutcome.ok cPreviewUrl ⟨[]⟩ (by decide)).1, ?_⟩
  exact (fetch_idempotent md5c NetOutcome.ok cPreviewUrl ⟨[]⟩ (by decide)).2.1 (by decide)


end MusicPlaylist
